import Mathlib

/-!
Shallow embedding of `networking.py` from pilvikala/arvion-simple-game.

The module implements a host (`ServerNetwork`) that ingests per-peer
`update` messages, keeps a remote-state table, and broadcasts `state`
messages, and a client (`ClientNetwork`) that sends updates and ingests
broadcasts.  Python dictionaries are modelled as insertion-ordered
association lists, JSON values as the inductive `JVal`, Python numbers as
rationals, and raised Python exceptions as an `Option PyErr` / `Except`
component of each operation's result.
-/

namespace TankGame

/-- JSON-like values as returned by `json.loads`.  Numbers are modelled as
rationals (Python ints and floats are merged into one numeric case). -/
inductive JVal where
  | null : JVal
  | bool : Bool → JVal
  | num : ℚ → JVal
  | str : String → JVal
  | arr : List JVal → JVal
  | obj : List (String × JVal) → JVal
deriving Repr

mutual

/-- Decidable equality for `JVal`, written by hand because the nested
occurrence of `List` defeats the automatic deriving handler. -/
def JVal.deq : (a b : JVal) → Decidable (a = b)
  | .null, .null => .isTrue rfl
  | .bool a, .bool b =>
    match decEq a b with
    | .isTrue h => .isTrue (by rw [h])
    | .isFalse h => .isFalse (fun hh => h (by injection hh))
  | .num a, .num b =>
    match decEq a b with
    | .isTrue h => .isTrue (by rw [h])
    | .isFalse h => .isFalse (fun hh => h (by injection hh))
  | .str a, .str b =>
    match decEq a b with
    | .isTrue h => .isTrue (by rw [h])
    | .isFalse h => .isFalse (fun hh => h (by injection hh))
  | .arr xs, .arr ys =>
    match JVal.deqList xs ys with
    | .isTrue h => .isTrue (by rw [h])
    | .isFalse h => .isFalse (fun hh => h (by injection hh))
  | .obj xs, .obj ys =>
    match JVal.deqFields xs ys with
    | .isTrue h => .isTrue (by rw [h])
    | .isFalse h => .isFalse (fun hh => h (by injection hh))
  | .null, .bool _ => .isFalse (fun h => nomatch h)
  | .null, .num _ => .isFalse (fun h => nomatch h)
  | .null, .str _ => .isFalse (fun h => nomatch h)
  | .null, .arr _ => .isFalse (fun h => nomatch h)
  | .null, .obj _ => .isFalse (fun h => nomatch h)
  | .bool _, .null => .isFalse (fun h => nomatch h)
  | .bool _, .num _ => .isFalse (fun h => nomatch h)
  | .bool _, .str _ => .isFalse (fun h => nomatch h)
  | .bool _, .arr _ => .isFalse (fun h => nomatch h)
  | .bool _, .obj _ => .isFalse (fun h => nomatch h)
  | .num _, .null => .isFalse (fun h => nomatch h)
  | .num _, .bool _ => .isFalse (fun h => nomatch h)
  | .num _, .str _ => .isFalse (fun h => nomatch h)
  | .num _, .arr _ => .isFalse (fun h => nomatch h)
  | .num _, .obj _ => .isFalse (fun h => nomatch h)
  | .str _, .null => .isFalse (fun h => nomatch h)
  | .str _, .bool _ => .isFalse (fun h => nomatch h)
  | .str _, .num _ => .isFalse (fun h => nomatch h)
  | .str _, .arr _ => .isFalse (fun h => nomatch h)
  | .str _, .obj _ => .isFalse (fun h => nomatch h)
  | .arr _, .null => .isFalse (fun h => nomatch h)
  | .arr _, .bool _ => .isFalse (fun h => nomatch h)
  | .arr _, .num _ => .isFalse (fun h => nomatch h)
  | .arr _, .str _ => .isFalse (fun h => nomatch h)
  | .arr _, .obj _ => .isFalse (fun h => nomatch h)
  | .obj _, .null => .isFalse (fun h => nomatch h)
  | .obj _, .bool _ => .isFalse (fun h => nomatch h)
  | .obj _, .num _ => .isFalse (fun h => nomatch h)
  | .obj _, .str _ => .isFalse (fun h => nomatch h)
  | .obj _, .arr _ => .isFalse (fun h => nomatch h)

/-- Decidable equality for lists of `JVal`. -/
def JVal.deqList : (xs ys : List JVal) → Decidable (xs = ys)
  | [], [] => .isTrue rfl
  | [], _ :: _ => .isFalse (fun h => nomatch h)
  | _ :: _, [] => .isFalse (fun h => nomatch h)
  | x :: xs, y :: ys =>
    match JVal.deq x y with
    | .isFalse h1 => .isFalse (fun h => h1 (by injection h))
    | .isTrue h1 =>
      match JVal.deqList xs ys with
      | .isTrue h2 => .isTrue (by rw [h1, h2])
      | .isFalse h2 => .isFalse (fun h => h2 (by injection h))

/-- Decidable equality for lists of object fields. -/
def JVal.deqFields : (xs ys : List (String × JVal)) → Decidable (xs = ys)
  | [], [] => .isTrue rfl
  | [], _ :: _ => .isFalse (fun h => nomatch h)
  | _ :: _, [] => .isFalse (fun h => nomatch h)
  | (k1, v1) :: xs, (k2, v2) :: ys =>
    match decEq k1 k2 with
    | .isFalse h1 =>
      .isFalse (fun h => by injection h with h' _; exact h1 (congrArg Prod.fst h'))
    | .isTrue h1 =>
      match JVal.deq v1 v2 with
      | .isFalse h2 =>
        .isFalse (fun h => by injection h with h' _; exact h2 (congrArg Prod.snd h'))
      | .isTrue h2 =>
        match JVal.deqFields xs ys with
        | .isTrue h3 => .isTrue (by rw [h1, h2, h3])
        | .isFalse h3 => .isFalse (fun h => h3 (by injection h))

end

instance : DecidableEq JVal := JVal.deq

/-- The Python exceptions the embedded code can raise. -/
inductive PyErr where
  | jsonDecodeError : PyErr
  | valueError : PyErr
  | typeError : PyErr
  | indexError : PyErr
  | attributeError : PyErr
deriving Repr, DecidableEq

/-- The result of running `json.loads` on one received line: either a
`json.JSONDecodeError` or a decoded JSON value.  The JSON parser itself is
Python's standard library, not repository code, so lines enter the model
already classified by it. -/
abbrev DecodedLine := Except Unit JVal

/-! ### Python dictionaries as insertion-ordered association lists -/

/-- `d.get(k)` / `d[k]` lookup on a Python dict (first matching key; the
dicts built below never hold duplicate keys). -/
def dictGet {κ α : Type} [DecidableEq κ] : List (κ × α) → κ → Option α
  | [], _ => none
  | kv :: rest, k => if kv.1 = k then some kv.2 else dictGet rest k

/-- `d[k] = v` on a Python dict: replaces the value in place when the key
exists, otherwise appends the binding at the end (insertion order
preserved, as Python dicts guarantee). -/
def dictSet {κ α : Type} [DecidableEq κ] : List (κ × α) → κ → α → List (κ × α)
  | [], k, v => [(k, v)]
  | kv :: rest, k, v =>
    if kv.1 = k then (k, v) :: rest else kv :: dictSet rest k v

/-- `d.pop(k, None)` on a Python dict: removes the binding for `k` if any. -/
def dictPop {κ α : Type} [DecidableEq κ] (d : List (κ × α)) (k : κ) :
    List (κ × α) :=
  d.filter (fun kv => kv.1 ≠ k)

/-! ### Python primitive coercions -/

/-- Parses the digits of a decimal literal into a natural number. -/
def digitsToNat (cs : List Char) : Nat :=
  cs.foldl (fun acc c => acc * 10 + (c.toNat - 48)) 0

/-- Strips leading and trailing whitespace from a character list (the
whitespace tolerance of Python's numeric-string conversions). -/
def stripSpace (cs : List Char) : List Char :=
  ((cs.dropWhile Char.isWhitespace).reverse.dropWhile Char.isWhitespace).reverse

/-- The core of Python's `float()` builtin on strings: optional sign,
decimal digits with an optional fractional part, surrounding whitespace
allowed.  (Exponents, `inf`/`nan` and underscore separators are outside the
inputs this development considers.)  Returns `none` where `float()` raises
`ValueError`. -/
def parseDecimal (s : String) : Option ℚ :=
  let cs := stripSpace s.toList
  let (sign, body) : ℚ × List Char :=
    match cs with
    | '-' :: rest => (-1, rest)
    | '+' :: rest => (1, rest)
    | _ => (1, cs)
  let (intDigits, rest) := body.span Char.isDigit
  match rest with
  | [] =>
    if intDigits.isEmpty then none
    else some (sign * (digitsToNat intDigits : ℚ))
  | '.' :: fracCs =>
    if fracCs.all Char.isDigit && !(intDigits.isEmpty && fracCs.isEmpty) then
      some (sign * ((digitsToNat intDigits : ℚ) +
        (digitsToNat fracCs : ℚ) / ((10 : ℚ) ^ fracCs.length)))
    else none
  | _ => none

/-- The core of Python's `int()` builtin on strings: optional sign and
decimal digits, surrounding whitespace allowed.  Returns `none` where
`int()` raises `ValueError`. -/
def parseInteger (s : String) : Option ℤ :=
  let cs := stripSpace s.toList
  let (sign, body) : ℤ × List Char :=
    match cs with
    | '-' :: rest => (-1, rest)
    | '+' :: rest => (1, rest)
    | _ => (1, cs)
  if body.isEmpty || !body.all Char.isDigit then none
  else some (sign * (digitsToNat body : ℤ))

/-- Python's `float(x)` applied to a decoded JSON value: numbers pass
through, `bool` is an `int` subtype, numeric strings are parsed, everything
else raises (`ValueError` for unparsable strings, `TypeError` otherwise). -/
def pyFloat : JVal → Except PyErr ℚ
  | .num q => .ok q
  | .bool b => .ok (if b then 1 else 0)
  | .str s =>
    match parseDecimal s with
    | some q => .ok q
    | none => .error .valueError
  | _ => .error .typeError

/-- Python's `int(x)` applied to a decoded JSON value: floats truncate
toward zero, `bool` is an `int` subtype, integer-literal strings are
parsed, everything else raises. -/
def pyInt : JVal → Except PyErr ℤ
  | .num q => .ok (if 0 ≤ q then ⌊q⌋ else ⌈q⌉)
  | .bool b => .ok (if b then 1 else 0)
  | .str s =>
    match parseInteger s with
    | some z => .ok z
    | none => .error .valueError
  | _ => .error .typeError

/-- `payload.get(key)` on a decoded JSON value: returns the field (or
Python `None`, modelled as `Option.none`) when the value is a dict, and
raises `AttributeError` otherwise (`.get` does not exist on lists,
numbers, strings, ...). -/
def pyGet : JVal → String → Except PyErr (Option JVal)
  | .obj fields, key =>
    match dictGet fields key with
    | some v => .ok (some v)
    | none => .ok none
  | _, _ => .error .attributeError

/-- Python `x == "s"` where `x` is a decoded field (possibly `None`): true
exactly when `x` is the string `s`; comparisons against non-strings are
`False`, never an error. -/
def pyEqStr : Option JVal → String → Bool
  | some (.str t), s => t = s
  | _, _ => false

/-- Python `isinstance(x, (int, float))` on a decoded field: JSON numbers
qualify, and so does `bool` (a subtype of `int`); `None` and everything
else do not. -/
def isIntFloat : Option JVal → Bool
  | some (.num _) => true
  | some (.bool _) => true
  | _ => false

/-- Python truthiness of a decoded field (`if not x`): `None`, `False`,
zero, the empty string, the empty list and the empty dict are falsy. -/
def pyTruthy : Option JVal → Bool
  | none => false
  | some .null => false
  | some (.bool b) => b
  | some (.num q) => q ≠ 0
  | some (.str s) => s ≠ ""
  | some (.arr xs) => !xs.isEmpty
  | some (.obj fs) => !fs.isEmpty

/-- The test `isinstance(position, list) and len(position) == 2` followed
by the two subscripts `position[0]`, `position[1]`: yields the two
elements exactly when `position` is a JSON list of length two. -/
def getPos2 : Option JVal → Option (JVal × JVal)
  | some (.arr [x, y]) => some (x, y)
  | _ => none

/-! ### Data model (`networking.py` lines 20-33) -/

/-- RGB colour triples (`Tuple[int, int, int]`). -/
abbrev Color := ℤ × ℤ × ℤ

/-- The `TankSnapshot` dataclass.  The client stores snapshots whose
`player_id` is whatever JSON value the broadcast carried, so the field is a
`JVal`; host-created snapshots always hold `.str id`. -/
structure TankSnapshot where
  player_id : JVal
  position : ℚ × ℚ
  angle : ℚ
  color : Color
deriving Repr, DecidableEq

/-- The `ClientRecord` dataclass.  The socket handle is abstracted to an
open/closed flag; whether writes on it succeed is a parameter of the
operations that write. -/
structure ClientRecord where
  sockOpen : Bool
  color : Color
  buffer : String
deriving Repr, DecidableEq

/-! ### `ServerNetwork` -/

/-- The mutable state of one `ServerNetwork` instance.  `socketPresent`
models the truthiness of `self._socket` (`None` until `start()`; closing
the socket object does not reset the attribute). -/
structure ServerState where
  palette : List Color
  color_index : Nat
  connections : List (String × ClientRecord)
  remote_states : List (String × TankSnapshot)
  local_state : Option TankSnapshot
  running : Bool
  socketPresent : Bool
deriving Repr, DecidableEq

/-- `ServerNetwork.__init__` (lines 36-51): caches the palette and raises
`ValueError` when it is empty; all tables start empty, nothing runs yet. -/
def serverInit (palette : List Color) : Except PyErr ServerState :=
  if palette.isEmpty then .error .valueError
  else .ok { palette := palette, color_index := 0, connections := [],
             remote_states := [], local_state := none, running := false,
             socketPresent := false }

/-- `_next_color` (lines 99-102): reads `palette[index % len(palette)]`
and then increments the index (the stored index itself grows without
bound; only the read wraps).  `__init__` guarantees a non-empty palette,
so the `getD` default is never read from states it constructs. -/
def next_color (st : ServerState) : Color × ServerState :=
  (st.palette.getD (st.color_index % st.palette.length) (0, 0, 0),
   { st with color_index := st.color_index + 1 })

/-- The colours returned by `n` consecutive `_next_color` calls. -/
def alloc_colors : Nat → ServerState → List Color
  | 0, _ => []
  | n + 1, st => (next_color st).1 :: alloc_colors n (next_color st).2

/-- The server state after `n` consecutive `_next_color` calls. -/
def alloc_state : Nat → ServerState → ServerState
  | 0, st => st
  | n + 1, st => alloc_state n (next_color st).2

/-- The body of `_remove_client` (lines 218-226): pops the peer from both
the connection registry and the remote-state table, then closes the
popped record's socket (close errors swallowed). -/
def remove_client (st : ServerState) (player_id : String) : ServerState :=
  { st with connections := dictPop st.connections player_id,
            remote_states := dictPop st.remote_states player_id }

/-- `_remove_client` first acquires `self._lock`, a non-reentrant
`threading.Lock`.  `lockHeld` says whether the calling thread already
holds that lock; if so the acquire blocks forever — modelled as
`.error ()` (the removal never happens). -/
def remove_client_locked (lockHeld : Bool) (st : ServerState)
    (player_id : String) : Except Unit ServerState :=
  if lockHeld then .error () else .ok (remove_client st player_id)

/-- `shutdown` (lines 66-79): clears the running flag, closes the
listening socket if present (errors swallowed; the attribute keeps the
closed object), closes every registered connection socket (errors
swallowed) and clears the connection registry.  `self._remote_states` is
not touched. -/
def shutdown (st : ServerState) : ServerState :=
  { st with running := false, connections := [] }

/-- `update_local_state` (lines 81-90): replaces the local snapshot. -/
def update_local_state (st : ServerState) (player_id : String)
    (position : ℚ × ℚ) (angle : ℚ) (color : Color) : ServerState :=
  { st with local_state := some ⟨.str player_id, position, angle, color⟩ }

/-- One successful iteration of `_accept_loop` (lines 104-133) for a fresh
connection: allocate a colour, register the connection, insert the
default-pose snapshot, send the `assign` message (when that send raises
`OSError` the peer is removed again — no lock held at that call site). -/
def accept_client (st : ServerState) (player_id : String)
    (assignSendFails : Bool) : ServerState :=
  let (color, st1) := next_color st
  let st2 := { st1 with
    connections := dictSet st1.connections player_id ⟨true, color, ""⟩,
    remote_states := dictSet st1.remote_states player_id
      ⟨.str player_id, (0, 0), 0, color⟩ }
  if assignSendFails then remove_client st2 player_id else st2

/-- `_handle_message` (lines 157-181) applied to one decoded line.
Returns the new server state together with the exception the handler
raised, if any: `json.JSONDecodeError` is caught (`return`), shape-check
failures `return` without touching state, but a failing `float()` on a
position element raises out of the handler after the colour (and possibly
the colour index) has already been chosen. -/
def handle_message (st : ServerState) (player_id : String)
    (line : DecodedLine) : ServerState × Option PyErr :=
  match line with
  | .error _ => (st, none)
  | .ok payload =>
    match pyGet payload "type" with
    | .error e => (st, some e)
    | .ok ty =>
      if !pyEqStr ty "update" then (st, none)
      else
        match pyGet payload "position", pyGet payload "angle" with
        | .ok position, .ok angle =>
          match getPos2 position with
          | none => (st, none)
          | some (px, py) =>
            if !isIntFloat angle then (st, none)
            else
              let (color, st1) :=
                match dictGet st.remote_states player_id with
                | some snapshot => (snapshot.color, st)
                | none => next_color st
              match pyFloat px with
              | .error e => (st1, some e)
              | .ok qx =>
                match pyFloat py with
                | .error e => (st1, some e)
                | .ok qy =>
                  match pyFloat (angle.getD .null) with
                  | .error e => (st1, some e)
                  | .ok qa =>
                    let snap : TankSnapshot := ⟨.str player_id, (qx, qy), qa, color⟩
                    ({ st1 with
                        remote_states := dictSet st1.remote_states player_id snap },
                     none)
        | .error e, _ => (st, some e)
        | _, .error e => (st, some e)

/-- The `update` messages `_handle_message` actually applies: the parsed
position and angle for exactly the lines that pass every shape check and
whose `float()` conversions succeed; `none` for lines the handler drops
or raises on.  This is the specification-side notion of a *valid*
`update` message, mirroring the handler's own tests. -/
def update_of_line (line : DecodedLine) : Option ((ℚ × ℚ) × ℚ) :=
  match line with
  | .error _ => none
  | .ok payload =>
    match pyGet payload "type" with
    | .error _ => none
    | .ok ty =>
      if !pyEqStr ty "update" then none
      else
        match pyGet payload "position", pyGet payload "angle" with
        | .ok position, .ok angle =>
          match getPos2 position with
          | none => none
          | some (px, py) =>
            if !isIntFloat angle then none
            else
              match pyFloat px, pyFloat py, pyFloat (angle.getD .null) with
              | .ok qx, .ok qy, .ok qa => some ((qx, qy), qa)
              | _, _, _ => none
        | _, _ => none

/-- The inner read loop of `_client_loop` (lines 135-153) over a sequence
of complete, non-blank, already-split lines for one peer: applies
`_handle_message` in arrival order, stopping at the first uncaught
exception (the loop's `except OSError` does not catch `ValueError`,
`TypeError` or `AttributeError`). -/
def processLines (st : ServerState) (player_id : String) :
    List DecodedLine → ServerState × Option PyErr
  | [] => (st, none)
  | l :: ls =>
    match handle_message st player_id l with
    | (st1, some e) => (st1, some e)
    | (st1, none) => processLines st1 player_id ls

/-- The whole of `_client_loop` for one peer's line sequence: however the
read loop ends — EOF, `OSError`, or an exception escaping
`_handle_message` — the `finally` block runs `_remove_client` (this
thread holds no lock there, so the removal succeeds). -/
def client_loop_finish (st : ServerState) (player_id : String)
    (lines : List DecodedLine) : ServerState :=
  remove_client (processLines st player_id lines).1 player_id

/-- Serialization of one snapshot inside `_build_state_message`
(lines 206-215). -/
def snapshot_to_json (s : TankSnapshot) : JVal :=
  .obj [("player_id", s.player_id),
        ("position", .arr [.num s.position.1, .num s.position.2]),
        ("angle", .num s.angle),
        ("color", .arr [.num s.color.1, .num s.color.2.1, .num s.color.2.2])]

/-- `_build_state_message` (lines 199-216): all remote snapshots plus the
local one (appended last, when set); `none` when the combined list is
empty. -/
def build_state_message (st : ServerState) : Option JVal :=
  let states := st.remote_states.map (fun kv => kv.2) ++
    (match st.local_state with
     | some s => [s]
     | none => [])
  if states.isEmpty then none
  else some (.obj [("type", .str "state"),
                   ("tanks", .arr (states.map snapshot_to_json))])

/-- The body of one `_broadcast_loop` tick (lines 183-197).  When the
state message is non-empty the loop acquires `self._lock`, writes to every
registered connection collecting the peers whose `sendall` raised
`OSError` (`writeFails`), and then — still holding the lock — calls
`_remove_client` for each collected peer, which tries to re-acquire the
same non-reentrant lock (`remove_client_locked true`).  `.error ()` marks
the broadcast thread blocking forever on that acquire. -/
def broadcast_tick (writeFails : String → Bool) (st : ServerState) :
    Except Unit ServerState :=
  match build_state_message st with
  | none => .ok st
  | some _ =>
    let dead_clients :=
      (st.connections.filter (fun kv => writeFails kv.1)).map (fun kv => kv.1)
    dead_clients.foldlM (fun s pid => remove_client_locked true s pid) st

/-! ### `ClientNetwork` -/

/-- The mutable state of one `ClientNetwork` instance.  `sockOpen` models
`self.socket is not None`. -/
structure ClientState where
  sockOpen : Bool
  player_id : Option String
  assigned_color : Option Color
  remote_states : List (JVal × TankSnapshot)
  buffer : String
  running : Bool
deriving Repr, DecidableEq

/-- `ClientNetwork.__init__` (lines 230-240). -/
def clientInit : ClientState :=
  { sockOpen := false, player_id := none, assigned_color := none,
    remote_states := [], buffer := "", running := false }

/-- `close` (lines 259-266): clears the running flag and, when a socket is
held, closes it (errors swallowed) and sets the attribute to `None`. -/
def close (cst : ClientState) : ClientState :=
  { cst with running := false, sockOpen := false }

/-- `send_snapshot` (lines 268-275): a silent no-op when no socket is held
or the running flag is off; otherwise encodes one `update` message and
writes it — a write failure (`sendFails`) triggers `close()`.  The second
component is the payload written to the socket, if any. -/
def send_snapshot (sendFails : Bool) (cst : ClientState)
    (position : ℚ × ℚ) (angle : ℚ) : ClientState × Option JVal :=
  if !cst.sockOpen || !cst.running then (cst, none)
  else
    let payload : JVal := .obj
      [("type", .str "update"),
       ("position", .arr [.num position.1, .num position.2]),
       ("angle", .num angle)]
    if sendFails then (close cst, none) else (cst, some payload)

/-- Python `x or default` on a decoded field (used for the `position` and
`color` fallbacks in `_receiver_loop`). -/
def pyOrDefault (x : Option JVal) (d : JVal) : JVal :=
  if pyTruthy x then x.getD .null else d

/-- Python subscript `x[i]` on a decoded JSON value: list indexing raises
`IndexError` out of range; string indexing yields a one-character string;
other values are not subscriptable (`TypeError`). -/
def pySubscript : JVal → Nat → Except PyErr JVal
  | .arr xs, i =>
    match xs.get? i with
    | some v => .ok v
    | none => .error .indexError
  | .str s, i =>
    match s.toList.get? i with
    | some c => .ok (.str (String.mk [c]))
    | none => .error .indexError
  | _, _ => .error .typeError

/-- Python `for x in v` over a decoded JSON value: a list yields its
elements, a string its one-character substrings, a dict its keys; other
values are not iterable (`TypeError` raised as the loop starts). -/
def iterElems : JVal → Except PyErr (List JVal)
  | .arr xs => .ok xs
  | .str s => .ok (s.toList.map (fun c => .str (String.mk [c])))
  | .obj fs => .ok (fs.map (fun kv => JVal.str kv.1))
  | _ => .error .typeError

/-- One iteration of the `for tank in tanks` loop of `_receiver_loop`
(lines 294-306): reads the fields with their documented fallbacks, skips
entries without a truthy `player_id`, then builds the snapshot —
evaluating `float(position[0])`, `float(position[1])`, `float(angle)` and
the three `int(color[i])` in that order, any of which can raise. -/
def process_tank (acc : List (JVal × TankSnapshot)) (tank : JVal) :
    Except PyErr (List (JVal × TankSnapshot)) :=
  match tank with
  | .obj fields =>
    let player_id := dictGet fields "player_id"
    let position := pyOrDefault (dictGet fields "position") (.arr [.num 0, .num 0])
    let angle := (dictGet fields "angle").getD (.num 0)
    let color := pyOrDefault (dictGet fields "color")
      (.arr [.num 46, .num 196, .num 182])
    if !pyTruthy player_id then .ok acc
    else do
      let p0 ← pySubscript position 0
      let qx ← pyFloat p0
      let p1 ← pySubscript position 1
      let qy ← pyFloat p1
      let qa ← pyFloat angle
      let c0 ← pySubscript color 0
      let zr ← pyInt c0
      let c1 ← pySubscript color 1
      let zg ← pyInt c1
      let c2 ← pySubscript color 2
      let zb ← pyInt c2
      let pid := player_id.getD .null
      pure (dictSet acc pid ⟨pid, (qx, qy), qa, (zr, zg, zb)⟩)
  | _ => .error .attributeError

/-- Handling of one decoded payload inside `_receiver_loop`
(lines 287-307): non-`state` messages are skipped; for a `state` message
the `tanks` value (default `[]` when the key is missing) is iterated into
a fresh dict which then replaces the whole remote-state table.  An
exception while building leaves the table untouched and escapes the
loop. -/
def receiver_step (cst : ClientState) (payload : JVal) :
    ClientState × Option PyErr :=
  match pyGet payload "type" with
  | .error e => (cst, some e)
  | .ok ty =>
    if !pyEqStr ty "state" then (cst, none)
    else
      match pyGet payload "tanks" with
      | .error e => (cst, some e)
      | .ok tanksOpt =>
        let tanks := tanksOpt.getD (.arr [])
        match iterElems tanks with
        | .error e => (cst, some e)
        | .ok elems =>
          match elems.foldlM process_tank [] with
          | .error e => (cst, some e)
          | .ok updated => ({ cst with remote_states := updated }, none)

/-- One received line, as `_read_message_blocking` sees it after splitting
the buffer on newlines: either whitespace-only (skipped) or the result of
`json.loads` on its content. -/
inductive WireLine where
  | blank : WireLine
  | content : DecodedLine → WireLine

/-- `_receiver_loop` (lines 284-307) driven by the sequence of complete
lines arriving on the socket.  Blank lines are consumed inside
`_read_message_blocking`; a malformed non-blank line makes `_decode`
raise `json.JSONDecodeError`, which `_read_message_blocking` does NOT
catch (only `socket.timeout` and `OSError` are), so it propagates and the
receiver thread dies — recorded as the `some .jsonDecodeError` outcome.
Exhausting the list models EOF: `recv` returns no data,
`_read_message_blocking` calls `close()` and returns `None`, and the loop
then exits on its `self.socket` check. -/
def receiver_loop : ClientState → List WireLine → ClientState × Option PyErr
  | cst, [] =>
    if !(cst.running && cst.sockOpen) then (cst, none) else (close cst, none)
  | cst, line :: rest =>
    if !(cst.running && cst.sockOpen) then (cst, none)
    else
      match line with
      | .blank => receiver_loop cst rest
      | .content (.error _) => (cst, some .jsonDecodeError)
      | .content (.ok v) =>
        match receiver_step cst v with
        | (cst1, some e) => (cst1, some e)
        | (cst1, none) => receiver_loop cst1 rest

/-- The `player_id` field of one tank entry, when the entry is an object
that has one. -/
def tank_id : JVal → Option JVal
  | .obj fs => dictGet fs "player_id"
  | _ => none

/-- The peers "listed in" a `state` payload: the `player_id` values of its
tank entries. -/
def tank_ids (payload : JVal) : List JVal :=
  match payload with
  | .obj fields =>
    match (dictGet fields "tanks").getD (.arr []) with
    | .arr xs => xs.filterMap tank_id
    | _ => []
  | _ => []

/-- Whether a decoded payload is a `state` message. -/
def is_state_msg (payload : JVal) : Bool :=
  match payload with
  | .obj fields => pyEqStr (dictGet fields "type") "state"
  | _ => false

/-! ### Concrete scenario states and messages (used by individual claims) -/

/-- A running host with two connected peers `"a"` and `"b"`. -/
def stC1 : ServerState :=
  { palette := [(46, 196, 182), (255, 159, 67)], color_index := 2,
    connections := [("a", ⟨true, (46, 196, 182), ""⟩), ("b", ⟨true, (255, 159, 67), ""⟩)],
    remote_states := [("a", ⟨.str "a", (0, 0), 0, (46, 196, 182)⟩),
                      ("b", ⟨.str "b", (0, 0), 0, (255, 159, 67)⟩)],
    local_state := none, running := true, socketPresent := true }

/-- A running host with one connected peer `"p"` whose current snapshot
holds pose `(1, 2)`, angle `7`. -/
def stHost : ServerState :=
  { palette := [(46, 196, 182), (255, 159, 67)], color_index := 1,
    connections := [("p", ⟨true, (46, 196, 182), ""⟩)],
    remote_states := [("p", ⟨.str "p", (1, 2), 7, (46, 196, 182)⟩)],
    local_state := none, running := true, socketPresent := true }

/-- A fresh host that was never started. -/
def stC4 : ServerState :=
  { palette := [(46, 196, 182)], color_index := 0, connections := [],
    remote_states := [], local_state := none, running := false,
    socketPresent := false }

/-- A client that completed its handshake and is connected. -/
def cstClient : ClientState :=
  { sockOpen := true, player_id := some "me", assigned_color := some (46, 196, 182),
    remote_states := [], buffer := "", running := true }

/-- A well-formed `update` line with position `[3, 4]` and angle `5`. -/
def updMsg34 : DecodedLine :=
  .ok (.obj [("type", .str "update"), ("position", .arr [.num 3, .num 4]),
             ("angle", .num 5)])

/-- A well-formed `update` line with position `[10, 20]` and angle `90`. -/
def updGood1 : DecodedLine :=
  .ok (.obj [("type", .str "update"), ("position", .arr [.num 10, .num 20]),
             ("angle", .num 90)])

/-- An `update` line whose first position element is the non-numeric
string `"a"`: it passes every shape check of `_handle_message` but makes
`float()` raise `ValueError`. -/
def updPoison : DecodedLine :=
  .ok (.obj [("type", .str "update"), ("position", .arr [.str "a", .num 0]),
             ("angle", .num 0)])

/-- A well-formed `update` line with position `[30, 40]` and angle `180`. -/
def updGood2 : DecodedLine :=
  .ok (.obj [("type", .str "update"), ("position", .arr [.num 30, .num 40]),
             ("angle", .num 180)])

/-- An `update` line whose position carries three elements. -/
def updArity3 : DecodedLine :=
  .ok (.obj [("type", .str "update"), ("position", .arr [.num 1, .num 2, .num 3]),
             ("angle", .num 0)])

/-- An `update` line whose angle is a string. -/
def updBadAngle : DecodedLine :=
  .ok (.obj [("type", .str "update"), ("position", .arr [.num 1, .num 2]),
             ("angle", .str "x")])

/-- An `update` line carrying the out-of-range angle `400`. -/
def updAngle400 : DecodedLine :=
  .ok (.obj [("type", .str "update"), ("position", .arr [.num 1, .num 2]),
             ("angle", .num 400)])

/-- A host line sequence mixing a malformed line, valid updates and
dropped updates; its last valid update is `updGood2`. -/
def linesC5 : List DecodedLine :=
  [.error (), updGood1, updBadAngle, updArity3, updGood2]

/-- The snapshot stored for peer `"p"` in `stHost`. -/
def snapHost : TankSnapshot := ⟨.str "p", (1, 2), 7, (46, 196, 182)⟩

/-- The fields of a single tank entry carrying angle `400`. -/
def tankFieldsA : List (String × JVal) :=
  [("player_id", .str "a"), ("position", .arr [.num 1, .num 2]),
   ("angle", .num 400), ("color", .arr [.num 4, .num 5, .num 6])]

/-- A three-colour palette. -/
def paletteW : List Color := [(1, 2, 3), (4, 5, 6), (7, 8, 9)]

/-- The fresh host that `ServerNetwork.__init__` builds on `paletteW`. -/
def stW8 : ServerState :=
  { palette := paletteW, color_index := 0, connections := [], remote_states := [],
    local_state := none, running := false, socketPresent := false }

/-- A broadcast `state` payload listing peers `"a"` and `"b"`. -/
def stateB1 : JVal :=
  .obj [("type", .str "state"), ("tanks", .arr
    [.obj [("player_id", .str "a"), ("position", .arr [.num 1, .num 2]),
           ("angle", .num 3), ("color", .arr [.num 4, .num 5, .num 6])],
     .obj [("player_id", .str "b"), ("position", .arr [.num 7, .num 8]),
           ("angle", .num 9), ("color", .arr [.num 1, .num 2, .num 3])]])]

/-- A later broadcast `state` payload listing only peer `"a"`, whose angle
field carries `400`. -/
def stateB2 : JVal :=
  .obj [("type", .str "state"), ("tanks", .arr
    [.obj [("player_id", .str "a"), ("position", .arr [.num 1, .num 2]),
           ("angle", .num 400), ("color", .arr [.num 4, .num 5, .num 6])]])]

/-! ### Dictionary lemmas -/

theorem dictGet_dictSet_self {κ α : Type} [DecidableEq κ] (d : List (κ × α)) (k : κ) (v : α) :
    dictGet (dictSet d k v) k = some v := by
  induction d with
  | nil => simp [dictGet, dictSet]
  | cons kv rest ih =>
    by_cases hk : kv.1 = k
    · simp [dictGet, dictSet, hk]
    · simp [dictGet, dictSet, hk, ih]

theorem dictGet_dictSet_ne {κ α : Type} [DecidableEq κ] (d : List (κ × α)) (k k' : κ) (v : α)
    (h : k ≠ k') : dictGet (dictSet d k v) k' = dictGet d k' := by
  induction d with
  | nil => simp [dictGet, dictSet, h]
  | cons kv rest ih =>
    by_cases hk : kv.1 = k
    · simp [dictGet, dictSet, hk, h, hk ▸ h]
    · by_cases hk' : kv.1 = k'
      · simp [dictGet, dictSet, hk, hk', Ne.symm h]
      · simp [dictGet, dictSet, hk, hk', ih]

theorem dictGet_dictPop_self {κ α : Type} [DecidableEq κ] (d : List (κ × α)) (k : κ) :
    dictGet (dictPop d k) k = none := by
  induction d with
  | nil => simp [dictGet, dictPop]
  | cons kv rest ih =>
    by_cases hk : kv.1 = k
    · simpa [dictPop, hk] using ih
    · simpa [dictGet, dictPop, hk] using ih

/-! ### Behaviour of `_handle_message` on one line -/

/-- When `update_of_line` classifies a line as a valid update,
`_handle_message` applies it: the stored snapshot takes the parsed pose,
the colour is the existing entry's colour (entry present) or the freshly
allocated one (entry absent, colour index bumped), and no exception is
raised. -/
theorem handle_message_applied (st : ServerState) (pid : String) (l : DecodedLine)
    (p : ℚ × ℚ) (a : ℚ) (h : update_of_line l = some (p, a)) :
    handle_message st pid l =
      ((match dictGet st.remote_states pid with
        | some snapshot =>
          { st with remote_states :=
              dictSet st.remote_states pid ⟨.str pid, p, a, snapshot.color⟩ }
        | none =>
          { st with color_index := st.color_index + 1,
                    remote_states := dictSet st.remote_states pid
                      ⟨.str pid, p, a,
                       st.palette.getD (st.color_index % st.palette.length) (0, 0, 0)⟩ }),
       none) := by
  cases l with
  | error e => simp [update_of_line] at h
  | ok payload =>
    cases hty : pyGet payload "type" with
    | error e => simp [update_of_line, hty] at h
    | ok ty =>
      cases hb : pyEqStr ty "update" with
      | false => simp [update_of_line, hty, hb] at h
      | true =>
        cases hpos : pyGet payload "position" with
        | error e => simp [update_of_line, hty, hb, hpos] at h
        | ok posOpt =>
          cases hang : pyGet payload "angle" with
          | error e => simp [update_of_line, hty, hb, hpos, hang] at h
          | ok angOpt =>
            cases hg : getPos2 posOpt with
            | none => simp [update_of_line, hty, hb, hpos, hang, hg] at h
            | some pq =>
              obtain ⟨px, py⟩ := pq
              cases hif : isIntFloat angOpt with
              | false => simp [update_of_line, hty, hb, hpos, hang, hg, hif] at h
              | true =>
                cases hx : pyFloat px with
                | error e => simp [update_of_line, hty, hb, hpos, hang, hg, hif, hx] at h
                | ok qx =>
                  cases hy : pyFloat py with
                  | error e => simp [update_of_line, hty, hb, hpos, hang, hg, hif, hx, hy] at h
                  | ok qy =>
                    cases hza : pyFloat (angOpt.getD .null) with
                    | error e =>
                      simp [update_of_line, hty, hb, hpos, hang, hg, hif, hx, hy, hza] at h
                    | ok qa =>
                      simp only [update_of_line, hty, hb, hpos, hang, hg, hif, hx, hy, hza,
                        Bool.not_true, Bool.false_eq_true, if_false, Option.some.injEq,
                        Prod.mk.injEq] at h
                      obtain ⟨hp, ha⟩ := h
                      subst hp
                      subst ha
                      cases hsnap : dictGet st.remote_states pid with
                      | some snapshot =>
                        simp [handle_message, hty, hb, hpos, hang, hg, hif, hx, hy, hza, hsnap]
                      | none =>
                        simp [handle_message, hty, hb, hpos, hang, hg, hif, hx, hy, hza, hsnap,
                          next_color]

/-- When `update_of_line` classifies a line as invalid and
`_handle_message` did not raise on it, the handler dropped the line: the
state is returned unchanged. -/
theorem handle_message_dropped (st : ServerState) (pid : String) (l : DecodedLine)
    (h : update_of_line l = none) (hok : (handle_message st pid l).2 = none) :
    handle_message st pid l = (st, none) := by
  cases l with
  | error e => simp [handle_message]
  | ok payload =>
    cases hty : pyGet payload "type" with
    | error e => simp [handle_message, hty] at hok
    | ok ty =>
      cases hb : pyEqStr ty "update" with
      | false => simp [handle_message, hty, hb]
      | true =>
        cases hpos : pyGet payload "position" with
        | error e => simp [handle_message, hty, hb, hpos] at hok
        | ok posOpt =>
          cases hang : pyGet payload "angle" with
          | error e => simp [handle_message, hty, hb, hpos, hang] at hok
          | ok angOpt =>
            cases hg : getPos2 posOpt with
            | none => simp [handle_message, hty, hb, hpos, hang, hg]
            | some pq =>
              obtain ⟨px, py⟩ := pq
              cases hif : isIntFloat angOpt with
              | false => simp [handle_message, hty, hb, hpos, hang, hg, hif]
              | true =>
                cases hsnap : dictGet st.remote_states pid with
                | some snapshot =>
                  cases hx : pyFloat px with
                  | error e =>
                    simp [handle_message, hty, hb, hpos, hang, hg, hif, hsnap, hx] at hok
                  | ok qx =>
                    cases hy : pyFloat py with
                    | error e =>
                      simp [handle_message, hty, hb, hpos, hang, hg, hif, hsnap, hx, hy] at hok
                    | ok qy =>
                      cases hza : pyFloat (angOpt.getD .null) with
                      | error e =>
                        simp [handle_message, hty, hb, hpos, hang, hg, hif, hsnap, hx, hy,
                          hza] at hok
                      | ok qa =>
                        simp [update_of_line, hty, hb, hpos, hang, hg, hif, hx, hy, hza] at h
                | none =>
                  cases hx : pyFloat px with
                  | error e =>
                    simp [handle_message, next_color, hty, hb, hpos, hang, hg, hif, hsnap,
                      hx] at hok
                  | ok qx =>
                    cases hy : pyFloat py with
                    | error e =>
                      simp [handle_message, next_color, hty, hb, hpos, hang, hg, hif, hsnap,
                        hx, hy] at hok
                    | ok qy =>
                      cases hza : pyFloat (angOpt.getD .null) with
                      | error e =>
                        simp [handle_message, next_color, hty, hb, hpos, hang, hg, hif, hsnap,
                          hx, hy, hza] at hok
                      | ok qa =>
                        simp [update_of_line, hty, hb, hpos, hang, hg, hif, hx, hy, hza] at h

/-! ### Behaviour of the ingest loop over a line sequence -/


theorem processLines_cons (st : ServerState) (pid : String) (l : DecodedLine)
    (ls : List DecodedLine) (hok : (processLines st pid (l :: ls)).2 = none) :
    (handle_message st pid l).2 = none ∧
    processLines st pid (l :: ls) = processLines (handle_message st pid l).1 pid ls := by
  cases hm : handle_message st pid l with
  | mk st1 e =>
    cases e with
    | some err => simp [processLines, hm] at hok
    | none => simp [processLines, hm]

theorem processLines_filter_valid (pid : String) (lines : List DecodedLine) :
    ∀ st, (processLines st pid lines).2 = none →
    processLines st pid (lines.filter fun l => (update_of_line l).isSome) =
      processLines st pid lines := by
  induction lines with
  | nil => intro st _; rfl
  | cons l ls ih =>
    intro st hok
    obtain ⟨h1, h2⟩ := processLines_cons st pid l ls hok
    cases hu : update_of_line l with
    | none =>
      have hd := handle_message_dropped st pid l hu h1
      rw [List.filter_cons_of_neg (by simp [hu])]
      rw [h2, hd]
      rw [h2, hd] at hok
      exact ih st hok
    | some v =>
      rw [List.filter_cons_of_pos (by simp [hu])]
      rw [h2] at hok ⊢
      cases hm : handle_message st pid l with
      | mk st1 e =>
        cases e with
        | some err => simp [hm] at h1
        | none =>
          simp only [processLines, hm]
          exact ih st1 (by rw [hm] at hok; simpa using hok)

theorem processLines_last_valid (pid : String) (lines : List DecodedLine) :
    ∀ st, (processLines st pid lines).2 = none →
    ∀ u, (lines.filterMap update_of_line).getLast? = some u →
    ∃ c, dictGet (processLines st pid lines).1.remote_states pid =
      some ⟨.str pid, u.1, u.2, c⟩ := by
  induction lines with
  | nil => intro st _ u hu; simp at hu
  | cons l ls ih =>
    intro st hok u hu
    obtain ⟨h1, h2⟩ := processLines_cons st pid l ls hok
    cases hv : update_of_line l with
    | none =>
      have hd := handle_message_dropped st pid l hv h1
      rw [h2, hd]
      rw [h2, hd] at hok
      exact ih st hok u (by simpa [List.filterMap_cons, hv] using hu)
    | some v =>
      obtain ⟨p, a⟩ := v
      have happ := handle_message_applied st pid l p a hv
      rw [h2] at hok ⊢
      cases hrest : (ls.filterMap update_of_line).getLast? with
      | some u' =>
        have huu : u = u' := by
          cases hfm : ls.filterMap update_of_line with
          | nil => rw [hfm] at hrest; simp at hrest
          | cons b bs =>
            rw [List.filterMap_cons, hv, hfm, List.getLast?_cons_cons] at hu
            rw [hfm] at hrest
            rw [hu] at hrest
            exact Option.some.injEq _ _ ▸ hrest
        exact huu ▸ ih (handle_message st pid l).1 hok u' hrest
      | none =>
        have hnil : ls.filterMap update_of_line = [] := by
          cases hfm : ls.filterMap update_of_line with
          | nil => rfl
          | cons b bs => rw [hfm] at hrest; simp at hrest
        have hu' : u = (p, a) := by
          rw [List.filterMap_cons, hv, hnil] at hu
          simpa using hu.symm
        have hfilnil : ls.filter (fun l => (update_of_line l).isSome) = [] := by
          rw [List.filter_eq_nil_iff]
          intro x hx
          simp [List.filterMap_eq_nil_iff.mp hnil x hx]
        have hfix : processLines (handle_message st pid l).1 pid ls =
            ((handle_message st pid l).1, none) := by
          have hf := processLines_filter_valid pid ls (handle_message st pid l).1 hok
          rw [hfilnil] at hf
          exact hf.symm
        rw [hfix]
        subst hu'
        cases hsnap : dictGet st.remote_states pid with
        | some snapshot =>
          rw [happ]
          simp only [hsnap]
          exact ⟨snapshot.color, dictGet_dictSet_self _ _ _⟩
        | none =>
          rw [happ]
          simp only [hsnap]
          exact ⟨_, dictGet_dictSet_self _ _ _⟩

/-! ### `Except` and `process_tank` helper lemmas -/

theorem except_bind_ok {ε α β : Type} (x : Except ε α) (f : α → Except ε β) (b : β)
    (h : (x >>= f) = .ok b) : ∃ a, x = .ok a ∧ f a = .ok b := by
  cases x with
  | error e => simp [Bind.bind, Except.bind] at h
  | ok a => exact ⟨a, rfl, by simpa [Bind.bind, Except.bind] using h⟩

/-- A successful `process_tank` on an object entry with a truthy
`player_id` appends/updates exactly that key, and the stored angle is the
`float()` of the entry's angle field (default `0`). -/
theorem process_tank_ok_obj (acc : List (JVal × TankSnapshot))
    (fs : List (String × JVal)) (acc' : List (JVal × TankSnapshot))
    (h : process_tank acc (.obj fs) = .ok acc')
    (htr : pyTruthy (dictGet fs "player_id") = true) :
    ∃ k snap, dictGet fs "player_id" = some k ∧ snap.player_id = k ∧
      pyFloat ((dictGet fs "angle").getD (.num 0)) = .ok snap.angle ∧
      acc' = dictSet acc k snap := by
  cases hk : dictGet fs "player_id" with
  | none => rw [hk] at htr; simp [pyTruthy] at htr
  | some k =>
    rw [hk] at htr
    simp only [process_tank, hk, htr, Bool.not_true, Bool.false_eq_true, if_false] at h
    obtain ⟨p0, hp0, h⟩ := except_bind_ok _ _ _ h
    obtain ⟨qx, hqx, h⟩ := except_bind_ok _ _ _ h
    obtain ⟨p1, hp1, h⟩ := except_bind_ok _ _ _ h
    obtain ⟨qy, hqy, h⟩ := except_bind_ok _ _ _ h
    obtain ⟨qa, hqa, h⟩ := except_bind_ok _ _ _ h
    obtain ⟨c0, hc0, h⟩ := except_bind_ok _ _ _ h
    obtain ⟨zr, hzr, h⟩ := except_bind_ok _ _ _ h
    obtain ⟨c1, hc1, h⟩ := except_bind_ok _ _ _ h
    obtain ⟨zg, hzg, h⟩ := except_bind_ok _ _ _ h
    obtain ⟨c2, hc2, h⟩ := except_bind_ok _ _ _ h
    obtain ⟨zb, hzb, h⟩ := except_bind_ok _ _ _ h
    simp only [pure, Except.pure, Except.ok.injEq] at h
    exact ⟨k, ⟨k, (qx, qy), qa, (zr, zg, zb)⟩, rfl, rfl, hqa, h.symm⟩

/-- `process_tank` skips an object entry without a truthy `player_id`. -/
theorem process_tank_skip (acc : List (JVal × TankSnapshot))
    (fs : List (String × JVal)) (htr : pyTruthy (dictGet fs "player_id") = false) :
    process_tank acc (.obj fs) = .ok acc := by
  simp [process_tank, htr]

/-- A true `pyEqStr` pins the field to the given string. -/
theorem pyEqStr_eq {o : Option JVal} {s : String} (h : pyEqStr o s = true) :
    o = some (.str s) := by
  cases o with
  | none => simp [pyEqStr] at h
  | some v =>
    cases v with
    | str t => simp only [pyEqStr, decide_eq_true_eq] at h; rw [h]
    | null => simp [pyEqStr] at h
    | bool b => simp [pyEqStr] at h
    | num q => simp [pyEqStr] at h
    | arr xs => simp [pyEqStr] at h
    | obj fs => simp [pyEqStr] at h

/-- Folding `process_tank` over tank entries never creates a key that is
not among the entries' `player_id` values. -/
theorem foldlM_process_tank_keys (elems : List JVal) :
    ∀ acc acc', elems.foldlM process_tank acc = .ok acc' →
    ∀ pid : JVal, dictGet acc pid = none → pid ∉ elems.filterMap tank_id →
    dictGet acc' pid = none := by
  induction elems with
  | nil =>
    intro acc acc' h pid hacc _
    simp only [List.foldlM_nil, pure, Except.pure, Except.ok.injEq] at h
    exact h ▸ hacc
  | cons t ts ih =>
    intro acc acc' h pid hacc hpid
    rw [List.foldlM_cons] at h
    obtain ⟨acc1, h1, h2⟩ := except_bind_ok _ _ _ h
    have hsub : pid ∈ List.filterMap tank_id ts →
        pid ∈ List.filterMap tank_id (t :: ts) := by
      intro hm
      rw [List.filterMap_cons]
      cases tank_id t with
      | none => exact hm
      | some b => exact List.mem_cons_of_mem _ hm
    cases t with
    | obj fs =>
      cases htr : pyTruthy (dictGet fs "player_id") with
      | false =>
        have hskip := process_tank_skip acc fs htr
        rw [hskip] at h1
        injection h1 with h1
        subst h1
        exact ih acc acc' h2 pid hacc (fun hmem => hpid (hsub hmem))
      | true =>
        obtain ⟨k, snap, hk, _, _, hacc1⟩ := process_tank_ok_obj acc fs acc1 h1 htr
        have hkid : tank_id (.obj fs) = some k := by simp [tank_id, hk]
        have hkpid : k ≠ pid := by
          intro he
          subst he
          refine hpid ?_
          rw [List.filterMap_cons, hkid]
          exact List.mem_cons_self _ _
        refine ih acc1 acc' h2 pid ?_ (fun hmem => hpid (hsub hmem))
        rw [hacc1, dictGet_dictSet_ne _ _ _ _ hkpid]
        exact hacc
    | null => simp [process_tank] at h1
    | bool b => simp [process_tank] at h1
    | num q => simp [process_tank] at h1
    | str s => simp [process_tank] at h1
    | arr xs => simp [process_tank] at h1

/-! ### Allocator lemmas -/

theorem alloc_state_fields (n : Nat) : ∀ st : ServerState,
    (alloc_state n st).color_index = st.color_index + n ∧
    (alloc_state n st).palette = st.palette := by
  induction n with
  | zero => intro st; simp [alloc_state]
  | succ m ih =>
    intro st
    obtain ⟨hi, hp⟩ := ih (next_color st).2
    simp only [alloc_state]
    refine ⟨?_, by simpa [next_color] using hp⟩
    rw [hi]
    simp [next_color]
    omega

theorem alloc_colors_eq (n : Nat) : ∀ st : ServerState,
    alloc_colors n st = (List.range n).map
      (fun j => st.palette.getD ((st.color_index + j) % st.palette.length) (0, 0, 0)) := by
  induction n with
  | zero => intro st; simp [alloc_colors]
  | succ m ih =>
    intro st
    rw [List.range_succ_eq_map, List.map_cons, List.map_map]
    simp only [alloc_colors]
    refine congrArg₂ List.cons (by simp [next_color]) ?_
    rw [ih (next_color st).2]
    apply List.map_congr_left
    intro j _
    simp [next_color, Function.comp, Nat.add_assoc, Nat.add_comm 1 j]

/-! ### Claim theorems -/

/-- C1: the claim says a broadcast-tick write failure removes that peer
from both tables after the pass and the loop continues for the others.
The code cannot do this: `_broadcast_loop` still holds `self._lock` when
it calls `_remove_client`, which re-acquires the same non-reentrant
`threading.Lock`, so the broadcast thread deadlocks on the first failed
peer (first conjunct); the removal-and-continue behaviour only happens in
the trivial case where no write failed (second conjunct). -/
theorem claim_C1 :
    broadcast_tick (fun pid => pid == "a") stC1 = .error () ∧
    broadcast_tick (fun _ => false) stC1 = .ok stC1 :=
  ⟨rfl, rfl⟩

/-- C2: the claim says both sides drop a malformed (non-JSON) line and
keep reading.  The host does (second and third conjuncts: the malformed
line is dropped and a following valid `update` is still applied), but the
client does not: `_read_message_blocking` catches only `socket.timeout`
and `OSError`, so `json.JSONDecodeError` propagates and kills the
receiver loop (first conjunct). -/
theorem claim_C2 :
    receiver_loop cstClient [.content (.error ())] =
      (cstClient, some .jsonDecodeError) ∧
    handle_message stHost "p" (.error ()) = (stHost, none) ∧
    processLines stHost "p" [.error (), updMsg34] =
      ({ stHost with
          remote_states := [("p", ⟨.str "p", (3, 4), 5, (46, 196, 182)⟩)] },
       none) :=
  ⟨rfl, rfl, rfl⟩

/-- C3: the claim says wrong arity, non-numeric position elements and a
non-numeric angle each drop only the message.  Wrong arity and a
non-numeric angle are indeed dropped with the state unchanged (first two
conjuncts), but a non-numeric position element passes the shape checks
and makes `float()` raise `ValueError` (third conjunct: the exception
escapes after `updGood1` was applied and before `updGood2` is seen), and
`_client_loop` then tears the connection down, removing the peer from
both tables (last two conjuncts) — not "connection stays open". -/
theorem claim_C3 :
    handle_message stHost "p" updArity3 = (stHost, none) ∧
    handle_message stHost "p" updBadAngle = (stHost, none) ∧
    processLines stHost "p" [updGood1, updPoison, updGood2] =
      ({ stHost with
          remote_states := [("p", ⟨.str "p", (10, 20), 90, (46, 196, 182)⟩)] },
       some .valueError) ∧
    dictGet (client_loop_finish stHost "p"
      [updGood1, updPoison, updGood2]).remote_states "p" = none ∧
    dictGet (client_loop_finish stHost "p"
      [updGood1, updPoison, updGood2]).connections "p" = none :=
  ⟨rfl, rfl, rfl, rfl, rfl⟩

/-- C4 counterexample: after one peer is accepted, `shutdown()` empties
the connection registry but leaves that peer's entry in the remote-state
table, so the table is not empty — refuting "both ... are empty". -/
theorem claim_C4_counterexample :
    serverInit [(46, 196, 182)] = .ok stC4 ∧
    (shutdown (accept_client { stC4 with running := true, socketPresent := true }
        "p1" false)).connections = [] ∧
    (shutdown (accept_client { stC4 with running := true, socketPresent := true }
        "p1" false)).remote_states =
      [("p1", ⟨.str "p1", (0, 0), 0, (46, 196, 182)⟩)] ∧
    ([("p1", (⟨.str "p1", (0, 0), 0, (46, 196, 182)⟩ : TankSnapshot))] :
      List (String × TankSnapshot)) ≠ [] :=
  ⟨rfl, rfl, rfl, by simp⟩

/-- C4 amended: after `shutdown()` the Connection Registry is empty and
the running flag is cleared; `shutdown()` never raises (it is total), is
idempotent, and is safe on a host whose `start()` was never called (the
statement quantifies over every state, fresh ones included) — but the
Remote State Table is left exactly as it was, not cleared. -/
theorem claim_C4_amended (st : ServerState) :
    (shutdown st).connections = [] ∧ (shutdown st).running = false ∧
    shutdown (shutdown st) = shutdown st ∧
    (shutdown st).remote_states = st.remote_states :=
  ⟨rfl, rfl, rfl, rfl⟩

/-- C5: over any line sequence the host ingests without raising, dropped
(invalid) messages have no effect — processing only the valid updates
yields the same state — and the stored entry for the peer carries the
position and angle of the last valid `update` (last-write-wins). -/
theorem claim_C5 (st : ServerState) (pid : String) (lines : List DecodedLine)
    (hok : (processLines st pid lines).2 = none) :
    processLines st pid (lines.filter fun l => (update_of_line l).isSome) =
      processLines st pid lines ∧
    ∀ u, (lines.filterMap update_of_line).getLast? = some u →
      ∃ c, dictGet (processLines st pid lines).1.remote_states pid =
        some ⟨.str pid, u.1, u.2, c⟩ :=
  ⟨processLines_filter_valid pid lines st hok,
   fun u hu => processLines_last_valid pid lines st hok u hu⟩

/-- C5 witness: a concrete sequence with a malformed line, two dropped
updates and two valid ones ends with the pose of the last valid update. -/
theorem claim_C5_witness :
    (processLines stHost "p" linesC5).2 = none ∧
    processLines stHost "p" (linesC5.filter fun l => (update_of_line l).isSome) =
      processLines stHost "p" linesC5 ∧
    ∃ c, dictGet (processLines stHost "p" linesC5).1.remote_states "p" =
      some ⟨.str "p", (30, 40), 180, c⟩ := by
  refine ⟨rfl, (claim_C5 stHost "p" linesC5 rfl).1, ?_⟩
  exact (claim_C5 stHost "p" linesC5 rfl).2 ((30, 40), 180) rfl

/-- C6: when the client processes a `state` message without raising, the
whole remote-state table is replaced by the message's content: any peer id
that is not among the message's `player_id` values — in particular one
present in the previous table — is absent afterwards. -/
theorem claim_C6 (cst : ClientState) (payload : JVal) (cst' : ClientState)
    (h : receiver_step cst payload = (cst', none))
    (hs : is_state_msg payload = true)
    (pid : JVal) (hpid : pid ∉ tank_ids payload) :
    dictGet cst'.remote_states pid = none := by
  cases payload with
  | obj fields =>
    simp only [is_state_msg] at hs
    have hty := pyEqStr_eq hs
    have hpe : pyEqStr (some (JVal.str "state")) "state" = true := rfl
    simp only [receiver_step, pyGet, hty, hpe, Bool.not_true, Bool.false_eq_true,
      if_false] at h
    cases htk : dictGet fields "tanks" with
    | none =>
      rw [htk] at h
      simp only [Option.getD, iterElems, List.foldlM_nil, pure, Except.pure] at h
      injection h with h1 h2
      subst h1
      simp [dictGet]
    | some tanks =>
      rw [htk] at h
      simp only [Option.getD] at h
      cases tanks with
      | arr xs =>
        simp only [iterElems] at h
        cases hfold : xs.foldlM process_tank [] with
        | error e =>
          rw [hfold] at h
          injection h with h1 h2
          simp at h2
        | ok updated =>
          rw [hfold] at h
          injection h with h1 h2
          subst h1
          have hids : pid ∉ xs.filterMap tank_id := by
            simpa [tank_ids, htk] using hpid
          exact foldlM_process_tank_keys xs [] updated hfold pid rfl hids
      | str s =>
        simp only [iterElems] at h
        cases hs2 : s.toList with
        | nil =>
          rw [hs2] at h
          simp only [List.map_nil, List.foldlM_nil, pure, Except.pure] at h
          injection h with h1 h2
          subst h1
          simp [dictGet]
        | cons c cs =>
          rw [hs2] at h
          simp only [List.map_cons, List.foldlM_cons, process_tank] at h
          simp [Bind.bind, Except.bind] at h
      | obj fs2 =>
        simp only [iterElems] at h
        cases fs2 with
        | nil =>
          simp only [List.map_nil, List.foldlM_nil, pure, Except.pure] at h
          injection h with h1 h2
          subst h1
          simp [dictGet]
        | cons kv rest =>
          simp only [List.map_cons, List.foldlM_cons, process_tank] at h
          simp [Bind.bind, Except.bind] at h
      | null => simp only [iterElems] at h; simp at h
      | bool b => simp only [iterElems] at h; simp at h
      | num q => simp only [iterElems] at h; simp at h
  | null => simp [is_state_msg] at hs
  | bool b => simp [is_state_msg] at hs
  | num q => simp [is_state_msg] at hs
  | str s => simp [is_state_msg] at hs
  | arr xs => simp [is_state_msg] at hs

/-- C6 witness: peer `"b"` is present after broadcast 1 and gone after
broadcast 2, which lists only `"a"`. -/
theorem claim_C6_witness :
    receiver_step (receiver_step cstClient stateB1).1 stateB2 =
      ((receiver_step (receiver_step cstClient stateB1).1 stateB2).1, none) ∧
    is_state_msg stateB2 = true ∧
    JVal.str "b" ∉ tank_ids stateB2 ∧
    dictGet (receiver_step cstClient stateB1).1.remote_states (.str "b") ≠ none ∧
    dictGet (receiver_step (receiver_step cstClient stateB1).1
      stateB2).1.remote_states (.str "b") = none := by
  refine ⟨rfl, rfl, by decide, by decide, ?_⟩
  exact claim_C6 _ stateB2 _ rfl rfl (.str "b") (by decide)

/-- C7: an `update` for a peer that already has an entry preserves that
entry's colour and allocates nothing (the colour index is untouched); two
consecutive updates with different poses end with the same colour. -/
theorem claim_C7 (st : ServerState) (pid : String) (snap : TankSnapshot)
    (l1 l2 : DecodedLine) (p1 p2 : ℚ × ℚ) (a1 a2 : ℚ)
    (hsnap : dictGet st.remote_states pid = some snap)
    (h1 : update_of_line l1 = some (p1, a1))
    (h2 : update_of_line l2 = some (p2, a2)) :
    ∃ st1 st2,
      handle_message st pid l1 = (st1, none) ∧
      handle_message st1 pid l2 = (st2, none) ∧
      dictGet st1.remote_states pid = some ⟨.str pid, p1, a1, snap.color⟩ ∧
      dictGet st2.remote_states pid = some ⟨.str pid, p2, a2, snap.color⟩ ∧
      st1.color_index = st.color_index ∧ st2.color_index = st.color_index := by
  have hproj : ∀ (s : ServerState) (d : List (String × TankSnapshot)),
      ({ s with remote_states := d } : ServerState).remote_states = d :=
    fun _ _ => rfl
  have happ1 := handle_message_applied st pid l1 p1 a1 h1
  simp only [hsnap] at happ1
  have hget1 : dictGet
      (dictSet st.remote_states pid ⟨.str pid, p1, a1, snap.color⟩) pid =
      some ⟨.str pid, p1, a1, snap.color⟩ := dictGet_dictSet_self _ _ _
  have happ2 := handle_message_applied
      { st with remote_states :=
          dictSet st.remote_states pid ⟨.str pid, p1, a1, snap.color⟩ }
      pid l2 p2 a2 h2
  simp only [hproj, hget1] at happ2
  exact ⟨_, _, happ1, happ2, hget1, dictGet_dictSet_self _ _ _, rfl, rfl⟩

/-- C7 witness: two consecutive updates with different poses for the
already-registered peer `"p"` keep its colour. -/
theorem claim_C7_witness :
    dictGet stHost.remote_states "p" = some snapHost ∧
    update_of_line updGood1 = some ((10, 20), 90) ∧
    update_of_line updGood2 = some ((30, 40), 180) ∧
    ∃ st1 st2,
      handle_message stHost "p" updGood1 = (st1, none) ∧
      handle_message st1 "p" updGood2 = (st2, none) ∧
      dictGet st1.remote_states "p" = some ⟨.str "p", (10, 20), 90, snapHost.color⟩ ∧
      dictGet st2.remote_states "p" = some ⟨.str "p", (30, 40), 180, snapHost.color⟩ ∧
      st1.color_index = stHost.color_index ∧ st2.color_index = stHost.color_index :=
  ⟨rfl, rfl, rfl,
   claim_C7 stHost "p" snapHost updGood1 updGood2 (10, 20) (30, 40) 90 180 rfl rfl rfl⟩

/-- C8: from the fresh allocator built by `__init__` on a palette of size
N, the first N+1 allocations return `palette[0..N-1]` and then
`palette[0]` again; the stored index is incremented on every call, and
call n returns `palette[n % N]` (the read wraps modulo N). -/
theorem claim_C8 (palette : List Color) (st0 : ServerState)
    (h : serverInit palette = .ok st0) :
    alloc_colors (palette.length + 1) st0 = palette ++ [palette.getD 0 (0, 0, 0)] ∧
    (∀ n, (alloc_state n st0).color_index = n) ∧
    (∀ n, (next_color (alloc_state n st0)).1 =
      palette.getD (n % palette.length) (0, 0, 0)) := by
  by_cases hne : palette.isEmpty
  · simp [serverInit, hne] at h
  · simp only [serverInit, hne, Bool.false_eq_true, if_false, Except.ok.injEq] at h
    subst h
    refine ⟨?_, ?_, ?_⟩
    · rw [alloc_colors_eq]
      simp only [List.range_succ, List.map_append, List.map_cons, List.map_nil]
      have hlast : ((0 + palette.length) % palette.length) = 0 := by
        simp [Nat.mod_self]
      refine congrArg₂ List.append ?_ (by rw [hlast])
      apply List.ext_getElem
      · simp
      · intro i h1 h2
        simp only [List.getElem_map, List.getElem_range]
        have hi : i < palette.length := h2
        rw [Nat.zero_add, Nat.mod_eq_of_lt hi, List.getD_eq_getElem _ _ hi]
    · intro n
      have hfield := (alloc_state_fields n
        ({ palette := palette, color_index := 0, connections := [],
           remote_states := [], local_state := none, running := false,
           socketPresent := false } : ServerState)).1
      rw [hfield]
      simp
    · intro n
      obtain ⟨hi, hp⟩ := alloc_state_fields n
        ({ palette := palette, color_index := 0, connections := [],
           remote_states := [], local_state := none, running := false,
           socketPresent := false } : ServerState)
      simp [next_color, hi, hp]

/-- C8 witness: the three-colour palette `paletteW`. -/
theorem claim_C8_witness :
    serverInit paletteW = .ok stW8 ∧
    alloc_colors (paletteW.length + 1) stW8 = paletteW ++ [paletteW.getD 0 (0, 0, 0)] ∧
    (alloc_state 2 stW8).color_index = 2 ∧
    (next_color (alloc_state 4 stW8)).1 = paletteW.getD (4 % paletteW.length) (0, 0, 0) := by
  have h := claim_C8 paletteW stW8 rfl
  exact ⟨rfl, h.1, h.2.1 2, h.2.2 4⟩

/-- C9 counterexample: an `update` (host side) and a `state` broadcast
(client side) carrying angle `400` are stored with angle `400`, which is
not in `[0, 360)` — no normalization happens in the networking layer. -/
theorem claim_C9_counterexample :
    (dictGet (handle_message stHost "p" updAngle400).1.remote_states "p").map
      TankSnapshot.angle = some 400 ∧
    (dictGet (receiver_step cstClient stateB2).1.remote_states (.str "a")).map
      TankSnapshot.angle = some 400 ∧
    ¬ ((400 : ℚ) < 360) :=
  ⟨rfl, rfl, by norm_num⟩

/-- C9 amended: the angle stored in a snapshot is exactly the `float()`
of the angle carried by the message — unnormalized — both on the host
(for every applied `update`) and on the client (for every processed tank
entry): it lies in `[0, 360)` only when the incoming value does. -/
theorem claim_C9_amended :
    (∀ (st : ServerState) (pid : String) (l : DecodedLine) (p : ℚ × ℚ) (a : ℚ),
      update_of_line l = some (p, a) →
      ∃ c, dictGet (handle_message st pid l).1.remote_states pid =
        some ⟨.str pid, p, a, c⟩) ∧
    (∀ (acc : List (JVal × TankSnapshot)) (fs : List (String × JVal))
        (acc' : List (JVal × TankSnapshot)) (k : JVal) (qa : ℚ),
      process_tank acc (.obj fs) = .ok acc' →
      dictGet fs "player_id" = some k → pyTruthy (some k) = true →
      dictGet fs "angle" = some (.num qa) →
      ∃ snap, dictGet acc' k = some snap ∧ snap.angle = qa) := by
  constructor
  · intro st pid l p a h
    have happ := handle_message_applied st pid l p a h
    cases hsnap : dictGet st.remote_states pid with
    | some snapshot =>
      simp only [hsnap] at happ
      simp only [happ]
      exact ⟨snapshot.color, dictGet_dictSet_self _ _ _⟩
    | none =>
      simp only [hsnap] at happ
      simp only [happ]
      exact ⟨_, dictGet_dictSet_self _ _ _⟩
  · intro acc fs acc' k qa hok hk htr hangle
    obtain ⟨k', snap, hk', hpid, hfloat, hacc'⟩ :=
      process_tank_ok_obj acc fs acc' hok (by rw [hk]; exact htr)
    rw [hk] at hk'
    injection hk' with hk'
    subst hk'
    rw [hangle] at hfloat
    simp only [Option.getD_some, pyFloat, Except.ok.injEq] at hfloat
    exact ⟨snap, hacc' ▸ dictGet_dictSet_self _ _ _, hfloat.symm⟩

/-- C9 witness: the amended statement applied to the angle-400 update on
the host and to the angle-400 tank entry on the client. -/
theorem claim_C9_witness :
    (∃ c, dictGet (handle_message stHost "p" updAngle400).1.remote_states "p" =
      some ⟨.str "p", (1, 2), 400, c⟩) ∧
    (∃ snap, dictGet
        [((JVal.str "a"), (⟨.str "a", (1, 2), 400, (4, 5, 6)⟩ : TankSnapshot))]
        (.str "a") = some snap ∧ snap.angle = 400) :=
  ⟨claim_C9_amended.1 stHost "p" updAngle400 (1, 2) 400 rfl,
   claim_C9_amended.2 []
     tankFieldsA [((JVal.str "a"), ⟨.str "a", (1, 2), 400, (4, 5, 6)⟩)]
     (.str "a") 400 rfl rfl rfl rfl⟩

/-- C10: `send_snapshot` called while the client holds no socket or its
running flag is off returns normally, writes nothing to any socket (the
written-payload component is `none`) and leaves the client state
untouched. -/
theorem claim_C10 (sendFails : Bool) (cst : ClientState)
    (position : ℚ × ℚ) (angle : ℚ)
    (h : cst.sockOpen = false ∨ cst.running = false) :
    send_snapshot sendFails cst position angle = (cst, none) := by
  rcases h with h | h <;> simp [send_snapshot, h]

/-- C10 witness: a freshly constructed (never connected) client. -/
theorem claim_C10_witness :
    (clientInit.sockOpen = false ∨ clientInit.running = false) ∧
    send_snapshot true clientInit (1, 2) 3 = (clientInit, none) :=
  ⟨Or.inl rfl, claim_C10 true clientInit (1, 2) 3 (Or.inl rfl)⟩

end TankGame
